import Mathlib

/-!
# Verification of the parallel agent orchestrator

A shallow embedding of `scripts/parallel_orchestrator.py`: the task state
machine (`AgentTask.execute`), the task deriver (`initialize_tasks`), the
state recorder (`save_state`), the synthesizer (`synthesize`) and the
orchestrator's `run` sequencing, together with theorems settling the
specification's claims about them.

Modelling conventions:
* Python strings are Lean `String`s; the Python slice `s[:n]` is `strTake s n`
  (a code-point prefix, as in Python).
* `datetime.now()` results and the randomized mock sleep are inputs
  (`ExecEnv`, `RunEnv` supply them), since they are environment reads.
* `uuid.uuid4()` is an identifier supply `ids : Nat → String`; its
  real-world uniqueness guarantee is the hypothesis `Function.Injective ids`.
* The external command invocation (`subprocess.Popen` + `communicate`) is an
  input `SpawnResult`: either the process finished with a return code,
  stdout and stderr, or the invocation raised an exception with a message.
  Python's `except Exception` handler is the `.raised` branch.
* Durable writes (the shared state file, the per-session report file) are
  recorded as ordered write logs in the orchestrator state.
* `ThreadPoolExecutor(max_workers=n)` raises `ValueError` for `n ≤ 0`
  (CPython contract); `run` therefore returns `Except`, the error carrying
  the state at the point the exception escaped.
* The `as_completed` drain order of the pool is an input `drainOrder`.
-/

set_option maxRecDepth 100000

namespace PO

/-- Python slice `s[:n]`: the first `n` code points of `s`. -/
def strTake (s : String) (n : Nat) : String :=
  String.mk (s.data.take n)

/-- Python slice `s[n:]`: all but the first `n` code points of `s`. -/
def strDrop (s : String) (n : Nat) : String :=
  String.mk (s.data.drop n)

/-- Does `pat` occur at the start of `hay` (character lists)? -/
def charsAtStart : List Char → List Char → Bool
  | [], _ => true
  | _ :: _, [] => false
  | a :: as, b :: bs => a == b && charsAtStart as bs

/-- Does `pat` occur anywhere inside `hay` (character lists)? -/
def charsOccur (pat : List Char) : List Char → Bool
  | [] => charsAtStart pat []
  | b :: bs => charsAtStart pat (b :: bs) || charsOccur pat bs

/-- Does the string `pat` occur as a contiguous substring of `hay`? -/
def strMentions (pat hay : String) : Bool :=
  charsOccur pat.data hay.data

/-- Task lifecycle status; Python stores these as the strings
`"pending"`, `"running"`, `"completed"`, `"failed"`. -/
inductive Status where
  | pending
  | running
  | completed
  | failed
deriving DecidableEq, Repr, Inhabited

/-- The string the Python code stores for each status. -/
def Status.str : Status → String
  | .pending => "pending"
  | .running => "running"
  | .completed => "completed"
  | .failed => "failed"

/-- Forward progress measure of the status state machine. -/
def Status.rank : Status → Nat
  | .pending => 0
  | .running => 1
  | .completed => 2
  | .failed => 2

/-- A status is terminal when it is `completed` or `failed`. -/
def Status.isTerminal : Status → Bool
  | .completed => true
  | .failed => true
  | _ => false

/-- `AgentTask` fields. `error` is `none` until the attribute is first
assigned (in Python it does not exist before a failure). -/
structure AgentTask where
  agent_id : String
  prompt : String
  name : String
  status : Status
  result : String
  error : Option String
  started_at : Option String
  ended_at : Option String
deriving DecidableEq, Repr, Inhabited

/-- `AgentTask.__init__(agent_id, prompt, name="")`:
`self.name = name or f"Agent-{agent_id[:4]}"`. -/
def AgentTask.mkTask (agent_id prompt name : String) : AgentTask :=
  { agent_id := agent_id
    prompt := prompt
    name := if name = "" then "Agent-" ++ strTake agent_id 4 else name
    status := .pending
    result := ""
    error := none
    started_at := none
    ended_at := none }

/-- Outcome of invoking the external command: either the process ran to
completion with an exit code and captured channels, or the invocation
raised an exception whose description is `msg`. -/
inductive SpawnResult where
  | finished (returncode : Int) (stdout stderr : String)
  | raised (msg : String)
deriving DecidableEq, Repr, Inhabited

/-- Environment reads made by one `execute` call: the randomized mock
sleep duration, the spawn outcome, and the two `datetime.now()` values. -/
structure ExecEnv where
  sleepTime : Nat
  spawn : SpawnResult
  startTime : String
  endTime : String
deriving DecidableEq, Repr, Inhabited

/-- The mock-mode result string:
`f"MOCK RESULT for {self.name}: Analyzed {self.prompt[:30]}... found 3 issues."`. -/
def mockResult (name prompt : String) : String :=
  "MOCK RESULT for " ++ name ++ ": Analyzed " ++ strTake prompt 30 ++ "... found 3 issues."

/-- `AgentTask.execute(test_mode)`, translated statement by statement.
The`try` body's two branches either succeed (mock mode, or the process
finishing) or raise (`SpawnResult.raised`); the `except Exception`
handler maps a raise to status `failed` with the exception's description.
`ended_at` is assigned after the handler, and `self` is returned. -/
def AgentTask.execute (t : AgentTask) (test_mode : Bool) (env : ExecEnv) : AgentTask :=
  let t := { t with status := .running, started_at := some env.startTime }
  let t :=
    if test_mode then
      { t with result := mockResult t.name t.prompt, status := .completed }
    else
      match env.spawn with
      | .finished rc out err =>
          let t := { t with result := out }
          if rc ≠ 0 then
            { t with status := .failed, error := some err }
          else
            { t with status := .completed }
      | .raised msg =>
          { t with status := .failed, error := some msg }
  { t with ended_at := some env.endTime }

/-- One entry of the static `agent_map` role table. -/
structure RoleEntry where
  perspective : String
  agent : String
  skills : String
deriving DecidableEq, Repr, Inhabited

/-- The `agent_map` table from `Orchestrator.initialize_tasks`. -/
def agent_map : List RoleEntry :=
  [ ⟨"Architecture & Security", "security-auditor", "security-checklist, api-patterns"⟩,
    ⟨"Backend Implementation", "backend-specialist", "nodejs-best-practices, api-patterns"⟩,
    ⟨"Frontend & UI/UX", "frontend-specialist", "react-patterns, tailwind-patterns"⟩,
    ⟨"Testing", "test-engineer", "testing-patterns, webapp-testing"⟩,
    ⟨"DevOps & Performance", "devops-engineer", "deployment-procedures, server-management"⟩ ]

/-- `agent_map[i % len(agent_map)]`. -/
def roleFor (i : Nat) : RoleEntry :=
  agent_map.getD (i % agent_map.length) ⟨"", "", ""⟩

/-- The rendered sub-agent instruction:
`f"Use the {agent_name} agent with {skills} skills to focus on {perspective}: {self.main_prompt}"`. -/
def subPrompt (m : RoleEntry) (main_prompt : String) : String :=
  "Use the " ++ m.agent ++ " agent with " ++ m.skills ++ " skills to focus on "
    ++ m.perspective ++ ": " ++ main_prompt

/-- `Orchestrator.initialize_tasks`: for `i in range(agent_count)`, pick role
`agent_map[i % 5]`, render the sub-prompt, draw a fresh identifier from the
supply `ids`, and append `AgentTask(agent_id, sub_prompt, agent_name)`. -/
def initialize_tasks (ids : Nat → String) (main_prompt : String) (agent_count : Nat) :
    List AgentTask :=
  (List.range agent_count).map fun i =>
    let m := roleFor i
    AgentTask.mkTask (ids i) (subPrompt m main_prompt) m.agent

/-- The per-task record serialized by `Orchestrator.save_state`: exactly the
keys `id`, `name`, `status`, `started_at`, `ended_at`, `result_snippet`. -/
structure TaskSnapshot where
  id : String
  name : String
  status : Status
  started_at : Option String
  ended_at : Option String
  result_snippet : String
deriving DecidableEq, Repr, Inhabited

/-- `"result_snippet": t.result[:200] if t.result else ""`. -/
def taskSnapshot (t : AgentTask) : TaskSnapshot :=
  { id := t.agent_id
    name := t.name
    status := t.status
    started_at := t.started_at
    ended_at := t.ended_at
    result_snippet := if t.result = "" then "" else strTake t.result 200 }

/-- The record serialized by `Orchestrator.save_state`: session id, snapshot
timestamp, objective, and one `TaskSnapshot` per task. -/
structure StateRecord where
  session_id : String
  timestamp : String
  main_prompt : String
  tasks : List TaskSnapshot
deriving DecidableEq, Repr, Inhabited

/-- Orchestrator state: the session fields plus the logs of durable writes
(`stateWrites` for the shared state file, `reportWrites` for report files,
each entry of `reportWrites` a `(path, content)` pair). -/
structure OrchState where
  session_id : String
  main_prompt : String
  tasks : List AgentTask
  stateWrites : List StateRecord
  reportWrites : List (String × String)
deriving DecidableEq, Repr, Inhabited

/-- `Orchestrator.save_state` at snapshot time `now`: the record it writes. -/
def save_state (st : OrchState) (now : String) : StateRecord :=
  { session_id := st.session_id
    timestamp := now
    main_prompt := st.main_prompt
    tasks := st.tasks.map taskSnapshot }

/-- Append one `save_state` write to the state-file log, timestamping it
from the `datetime.now()` supply `times` by write ordinal. -/
def recordState (times : Nat → String) (st : OrchState) : OrchState :=
  { st with stateWrites := st.stateWrites ++ [save_state st (times st.stateWrites.length)] }

/-- One per-task section of the synthesis report, exactly as concatenated in
`Orchestrator.synthesize`. -/
def sectionFor (t : AgentTask) : String :=
  "### " ++ t.name ++ "\n"
    ++ "- **Task**: " ++ strTake t.prompt 100 ++ "...\n"
    ++ "- **Status**: " ++ t.status.str ++ "\n"
    ++ "- **Key Findings**:\n\n" ++ (if t.result = "" then "No output generated." else t.result)
    ++ "\n\n"
    ++ "---\n\n"

/-- The header of the synthesis report. -/
def synthesisHeader (st : OrchState) : String :=
  "# Parallel Agents Synthesis Report\n"
    ++ "**Session ID**: " ++ st.session_id ++ "\n"
    ++ "**Main Objective**: " ++ st.main_prompt ++ "\n\n"
    ++ "---\n\n"

/-- The full synthesis report content: header, then one section per task in
derivation order. -/
def synthesisContent (st : OrchState) : String :=
  st.tasks.foldl (fun acc t => acc ++ sectionFor t) (synthesisHeader st)

/-- The report path `reports/synthesis_report_{self.session_id[:8]}.md`
(relative to the data directory). -/
def reportPath (session_id : String) : String :=
  "reports/synthesis_report_" ++ strTake session_id 8 ++ ".md"

/-- `Orchestrator.synthesize`: read every task's final state, build the
report text, write it to the session-namespaced path. Tasks are only read. -/
def synthesize (st : OrchState) : OrchState :=
  { st with reportWrites := st.reportWrites ++ [(reportPath st.session_id, synthesisContent st)] }

/-- Environment reads made by one `Orchestrator.run`: the identifier supply,
the `datetime.now()` supply for snapshot timestamps, each task's execution
environment, and the order in which `as_completed` yields the futures. -/
structure RunEnv where
  ids : Nat → String
  times : Nat → String
  execEnvs : Nat → ExecEnv
  drainOrder : List Nat

/-- One iteration of the `as_completed` drain loop: the future for task `j`
completes (its `execute` has run in a worker), and `save_state` is called. -/
def drainStep (env : RunEnv) (test_mode : Bool) (st : OrchState) (j : Nat) : OrchState :=
  match st.tasks[j]? with
  | none => st
  | some t =>
      recordState env.times
        { st with tasks := st.tasks.set j (t.execute test_mode (env.execEnvs j)) }

/-- `Orchestrator.run`: ensure dirs, derive tasks, snapshot, construct the
pool (`ThreadPoolExecutor(max_workers=agent_count)` raises `ValueError`
when `agent_count ≤ 0` — here `= 0` on `Nat`), drain completions snapshotting
after each, then synthesize. An error carries the state at the raise point:
writes already performed persist. -/
def run (env : RunEnv) (session_id main_prompt : String) (agent_count : Nat)
    (test_mode : Bool) : Except (String × OrchState) OrchState :=
  let st : OrchState :=
    { session_id := session_id
      main_prompt := main_prompt
      tasks := initialize_tasks env.ids main_prompt agent_count
      stateWrites := []
      reportWrites := [] }
  let st := recordState env.times st
  if agent_count = 0 then
    .error ("max_workers must be greater than 0", st)
  else
    .ok (synthesize (env.drainOrder.foldl (drainStep env test_mode) st))

/-! ## Helper lemmas -/

theorem strTake_append_strDrop (s : String) (n : Nat) : strTake s n ++ strDrop s n = s := by
  cases s with
  | mk data =>
    show String.mk (data.take n ++ data.drop n) = String.mk data
    rw [List.take_append_drop]

theorem strTake_length_le (s : String) (n : Nat) : (strTake s n).length ≤ n := by
  cases s with
  | mk data =>
    show (data.take n).length ≤ n
    exact List.length_take_le n data

theorem strTake_length_eq_of_le (s : String) (n : Nat) (h : n ≤ s.length) :
    (strTake s n).length = n := by
  cases s with
  | mk data =>
    show (data.take n).length = n
    simp [List.length_take]
    exact h

theorem Status.rank_le_two (s : Status) : s.rank ≤ 2 := by
  cases s <;> simp [Status.rank]

theorem Status.isTerminal_iff_rank (s : Status) : s.isTerminal = true ↔ s.rank = 2 := by
  cases s <;> simp [Status.isTerminal, Status.rank]

/-- `execute` always lands in a terminal status. -/
theorem execute_status_terminal (t : AgentTask) (m : Bool) (env : ExecEnv) :
    (t.execute m env).status = .completed ∨ (t.execute m env).status = .failed := by
  unfold AgentTask.execute
  cases m with
  | false =>
    cases env.spawn with
    | finished rc out err =>
      by_cases h : rc = 0 <;> simp [h]
    | raised msg => simp
  | true => simp

theorem execute_rank_two (t : AgentTask) (m : Bool) (env : ExecEnv) :
    (t.execute m env).status.rank = 2 := by
  rcases execute_status_terminal t m env with h | h <;> rw [h] <;> rfl

/-! ## Claim C1: `execute` is total, terminal, and maps exceptions to `failed` -/

/-- C1: for every task and every mode, `execute` is a total function (the
model of "never raises an exception to its caller"); on every return the
status is terminal (`completed` or `failed`) and `ended_at` is set (to the
second `datetime.now()` read), and the returned value is the task object;
moreover an exception arising from the invocation (the `raised` spawn
outcome, reached in real mode) is mapped to status `failed` with `error`
holding the exception's description. -/
theorem execute_total_terminal (t : AgentTask) (m : Bool) (env : ExecEnv) :
    ((t.execute m env).status = .completed ∨ (t.execute m env).status = .failed)
    ∧ (t.execute m env).ended_at = some env.endTime
    ∧ (∀ msg, m = false → env.spawn = .raised msg →
        (t.execute m env).status = .failed ∧ (t.execute m env).error = some msg) := by
  refine ⟨execute_status_terminal t m env, ?_, ?_⟩
  · unfold AgentTask.execute
    cases m with
    | false => cases env.spawn with
      | finished rc out err => by_cases h : rc = 0 <;> simp [h]
      | raised msg => simp
    | true => simp
  · intro msg hm hs
    subst hm
    unfold AgentTask.execute
    rw [hs]
    exact ⟨rfl, rfl⟩

/-- Witness for C1 at a concrete task whose invocation raises. -/
theorem execute_total_terminal_witness :
    (((AgentTask.mkTask "id-1" "p" "n").execute false ⟨0, .raised "boom", "t0", "t1"⟩).status
        = .completed
      ∨ ((AgentTask.mkTask "id-1" "p" "n").execute false ⟨0, .raised "boom", "t0", "t1"⟩).status
        = .failed)
    ∧ ((AgentTask.mkTask "id-1" "p" "n").execute false ⟨0, .raised "boom", "t0", "t1"⟩).ended_at
        = some "t1"
    ∧ (∀ msg, false = false → (SpawnResult.raised "boom" : SpawnResult) = .raised msg →
        ((AgentTask.mkTask "id-1" "p" "n").execute false ⟨0, .raised "boom", "t0", "t1"⟩).status
            = .failed
          ∧ ((AgentTask.mkTask "id-1" "p" "n").execute false
              ⟨0, .raised "boom", "t0", "t1"⟩).error = some msg) :=
  execute_total_terminal (AgentTask.mkTask "id-1" "p" "n") false ⟨0, .raised "boom", "t0", "t1"⟩

/-! ## Claim C2: real-mode exit-status handling

The claim asserts a *nonempty* error field on nonzero exit; the code sets
`self.error = stderr`, and the captured stderr may be the empty string, so
the error field can be empty. Counterexample below; the amended statement
drops "nonempty" (the field is set, equal to the captured stderr). -/

/-- C2 counterexample: a concrete real-mode run whose process exits with
status 1 and empty stderr ends `failed` with `error` set to the empty
string — the error field equals the captured stderr but is not nonempty. -/
theorem execute_nonzero_exit_empty_stderr :
    ((AgentTask.mkTask "id-2" "p" "n").execute false
        ⟨0, .finished 1 "partial out" "", "t0", "t1"⟩).status = .failed
    ∧ ((AgentTask.mkTask "id-2" "p" "n").execute false
        ⟨0, .finished 1 "partial out" "", "t0", "t1"⟩).error = some ""
    ∧ (∀ s, ((AgentTask.mkTask "id-2" "p" "n").execute false
        ⟨0, .finished 1 "partial out" "", "t0", "t1"⟩).error = some s → s.length = 0) := by
  refine ⟨by decide, by decide, ?_⟩
  intro s h
  have h' : some "" = some s := by rw [← h]; decide
  cases h'
  rfl

/-- C2 amended: in real mode, when the external command terminates with
exit status 0, `execute` sets status `completed` and result to the captured
stdout; with a nonzero exit status it sets status `failed`, `error` equal
to the captured stderr (possibly empty), and result holds whatever stdout
was captured. -/
theorem execute_real_exit_status (t : AgentTask) (env : ExecEnv)
    (rc : Int) (out err : String) (h : env.spawn = .finished rc out err) :
    (rc = 0 →
      (t.execute false env).status = .completed ∧ (t.execute false env).result = out)
    ∧ (rc ≠ 0 →
      (t.execute false env).status = .failed
        ∧ (t.execute false env).error = some err
        ∧ (t.execute false env).result = out) := by
  constructor
  · intro hrc
    unfold AgentTask.execute
    rw [h]
    simp [hrc]
  · intro hrc
    unfold AgentTask.execute
    rw [h]
    simp [hrc]

/-- Witness for C2 (amended) at concrete zero- and nonzero-exit runs. -/
theorem execute_real_exit_status_witness :
    ((1 : Int) = 0 →
      ((AgentTask.mkTask "id-3" "p" "n").execute false
          ⟨0, .finished 1 "out" "diag", "t0", "t1"⟩).status = .completed
        ∧ ((AgentTask.mkTask "id-3" "p" "n").execute false
          ⟨0, .finished 1 "out" "diag", "t0", "t1"⟩).result = "out")
    ∧ ((1 : Int) ≠ 0 →
      ((AgentTask.mkTask "id-3" "p" "n").execute false
          ⟨0, .finished 1 "out" "diag", "t0", "t1"⟩).status = .failed
        ∧ ((AgentTask.mkTask "id-3" "p" "n").execute false
            ⟨0, .finished 1 "out" "diag", "t0", "t1"⟩).error = some "diag"
        ∧ ((AgentTask.mkTask "id-3" "p" "n").execute false
            ⟨0, .finished 1 "out" "diag", "t0", "t1"⟩).result = "out") :=
  execute_real_exit_status (AgentTask.mkTask "id-3" "p" "n")
    ⟨0, .finished 1 "out" "diag", "t0", "t1"⟩ 1 "out" "diag" rfl

/-! ## Claim C10: mock-mode outcome is deterministic in the task's fields -/

/-- C10: in mock mode the outcome of `execute` depends only on the task's
`name` and `prompt`: for any two tasks agreeing on those fields and any two
environments (any sleep durations, spawn outcomes, clock readings), both
executions end `completed` with identical result strings. -/
theorem execute_mock_deterministic (t₁ t₂ : AgentTask) (e₁ e₂ : ExecEnv)
    (hn : t₁.name = t₂.name) (hp : t₁.prompt = t₂.prompt) :
    (t₁.execute true e₁).result = (t₂.execute true e₂).result
    ∧ (t₁.execute true e₁).status = .completed
    ∧ (t₂.execute true e₂).status = .completed := by
  refine ⟨?_, rfl, rfl⟩
  show mockResult t₁.name t₁.prompt = mockResult t₂.name t₂.prompt
  rw [hn, hp]

/-- Witness for C10: two tasks with the same name and prompt but different
identifiers and environments produce the same mock result. -/
theorem execute_mock_deterministic_witness :
    ((AgentTask.mkTask "id-a" "shared prompt" "worker").execute true
        ⟨2, .raised "x", "a0", "a1"⟩).result
      = ((AgentTask.mkTask "id-b" "shared prompt" "worker").execute true
        ⟨5, .finished 0 "" "", "b0", "b1"⟩).result
    ∧ ((AgentTask.mkTask "id-a" "shared prompt" "worker").execute true
        ⟨2, .raised "x", "a0", "a1"⟩).status = .completed
    ∧ ((AgentTask.mkTask "id-b" "shared prompt" "worker").execute true
        ⟨5, .finished 0 "" "", "b0", "b1"⟩).status = .completed :=
  execute_mock_deterministic (AgentTask.mkTask "id-a" "shared prompt" "worker")
    (AgentTask.mkTask "id-b" "shared prompt" "worker")
    ⟨2, .raised "x", "a0", "a1"⟩ ⟨5, .finished 0 "" "", "b0", "b1"⟩ rfl rfl

/-! ## Claim C3: task derivation -/

/-- The five role-table entries all carry a nonempty agent identifier, so
`AgentTask.__init__` never falls back to the default name. -/
theorem roleFor_agent_nonempty (i : Nat) : (roleFor i).agent ≠ "" := by
  have hlt : i % agent_map.length < 5 := by
    have hlen : agent_map.length = 5 := rfl
    rw [hlen]
    exact Nat.mod_lt _ (by decide)
  have hall : ∀ k, k < 5 → (agent_map.getD k ⟨"", "", ""⟩).agent ≠ "" := by decide
  exact hall _ hlt

/-- The task produced for slot `i`. -/
theorem initialize_tasks_getD (ids : Nat → String) (objective : String) (count i : Nat)
    (h : i < count) :
    (initialize_tasks ids objective count).getD i default
      = AgentTask.mkTask (ids i) (subPrompt (roleFor i) objective) (roleFor i).agent := by
  unfold initialize_tasks
  rw [List.getD_eq_getElem?_getD, List.getElem?_map, List.getElem?_range h]
  rfl

/-- C3: for every objective and every `count`, `initialize_tasks` produces
exactly `count` tasks in ascending slot order; task `i` draws its
perspective, agent identifier and skill tags from role-table entry
`i % 5` (the table has 5 entries), its label is that entry's agent
identifier, its identifier comes from the (injective) supply so identities
are pairwise distinct, and its instruction is the template embedding the
role fields and ending with the objective. -/
theorem initialize_tasks_correct (ids : Nat → String) (objective : String) (count : Nat)
    (hids : Function.Injective ids) :
    (initialize_tasks ids objective count).length = count
    ∧ agent_map.length = 5
    ∧ (∀ i, i < count →
        ((initialize_tasks ids objective count).getD i default).agent_id = ids i
        ∧ ((initialize_tasks ids objective count).getD i default).name
            = (agent_map.getD (i % agent_map.length) ⟨"", "", ""⟩).agent
        ∧ ((initialize_tasks ids objective count).getD i default).prompt
            = subPrompt (agent_map.getD (i % agent_map.length) ⟨"", "", ""⟩) objective
        ∧ ∃ p, ((initialize_tasks ids objective count).getD i default).prompt
            = p ++ objective)
    ∧ (∀ i j, i < count → j < count → i ≠ j →
        ((initialize_tasks ids objective count).getD i default).agent_id
          ≠ ((initialize_tasks ids objective count).getD j default).agent_id) := by
  refine ⟨by simp [initialize_tasks], rfl, ?_, ?_⟩
  · intro i hi
    rw [initialize_tasks_getD ids objective count i hi]
    refine ⟨rfl, ?_, rfl, ?_⟩
    · show (if (roleFor i).agent = "" then _ else (roleFor i).agent)
        = (agent_map.getD (i % agent_map.length) ⟨"", "", ""⟩).agent
      rw [if_neg (roleFor_agent_nonempty i)]
      rfl
    · exact ⟨"Use the " ++ (roleFor i).agent ++ " agent with " ++ (roleFor i).skills
        ++ " skills to focus on " ++ (roleFor i).perspective ++ ": ", rfl⟩
  · intro i j hi hj hne
    rw [initialize_tasks_getD ids objective count i hi,
      initialize_tasks_getD ids objective count j hj]
    show ids i ≠ ids j
    exact fun h => hne (hids h)

/-- A concrete injective identifier supply for witnesses. -/
def idSupply (n : Nat) : String := String.mk (List.replicate n 'a')

theorem idSupply_injective : Function.Injective idSupply := by
  intro a b h
  simpa [idSupply] using congrArg (fun s => s.data.length) h

/-- Witness for C3 at the count-7 scenario (roles wrap 0,1,2,3,4,0,1). -/
theorem initialize_tasks_correct_witness :
    (initialize_tasks idSupply "Review the login flow" 7).length = 7
    ∧ agent_map.length = 5
    ∧ (∀ i, i < 7 →
        ((initialize_tasks idSupply "Review the login flow" 7).getD i default).agent_id
            = idSupply i
        ∧ ((initialize_tasks idSupply "Review the login flow" 7).getD i default).name
            = (agent_map.getD (i % agent_map.length) ⟨"", "", ""⟩).agent
        ∧ ((initialize_tasks idSupply "Review the login flow" 7).getD i default).prompt
            = subPrompt (agent_map.getD (i % agent_map.length) ⟨"", "", ""⟩)
                "Review the login flow"
        ∧ ∃ p, ((initialize_tasks idSupply "Review the login flow" 7).getD i default).prompt
            = p ++ "Review the login flow")
    ∧ (∀ i j, i < 7 → j < 7 → i ≠ j →
        ((initialize_tasks idSupply "Review the login flow" 7).getD i default).agent_id
          ≠ ((initialize_tasks idSupply "Review the login flow" 7).getD j default).agent_id) :=
  initialize_tasks_correct idSupply "Review the login flow" 7 idSupply_injective

/-! ## Claim C6: the state record's shape and the result preview

The claim says the preview is "never the full result text"; the code stores
`t.result[:200]`, which *is* the full text whenever the result has at most
200 characters. Counterexample below; the amended statement keeps the
prefix/bound/no-error parts and drops "never the full text". -/

/-- A terminal task with a short (nonempty) result. -/
def tC6 : AgentTask :=
  { AgentTask.mkTask "id-c6" "inspect the cache layer" "worker" with
      status := .completed, result := "three findings" }

/-- C6 counterexample: for a task whose result is 14 characters, the
snapshot's `result_snippet` equals the full result text. -/
theorem snapshot_holds_full_result :
    (taskSnapshot tC6).result_snippet = tC6.result ∧ tC6.result ≠ "" := by
  decide

/-- C6 amended: every `save_state` record carries the session id, the
snapshot timestamp, the objective, and per task exactly the fields id,
name, status, started_at, ended_at and a `result_snippet` that is a prefix
of the result of length at most 200 — equal to the full result only when
the result has at most 200 characters, a strict truncation otherwise. The
snapshot does not depend on a task's `error` field. -/
theorem save_state_record (st : OrchState) (now : String) :
    (save_state st now).session_id = st.session_id
    ∧ (save_state st now).timestamp = now
    ∧ (save_state st now).main_prompt = st.main_prompt
    ∧ (save_state st now).tasks = st.tasks.map taskSnapshot
    ∧ (∀ t : AgentTask,
        (taskSnapshot t).id = t.agent_id
        ∧ (taskSnapshot t).name = t.name
        ∧ (taskSnapshot t).status = t.status
        ∧ (taskSnapshot t).started_at = t.started_at
        ∧ (taskSnapshot t).ended_at = t.ended_at
        ∧ (∃ rest, t.result = (taskSnapshot t).result_snippet ++ rest)
        ∧ (taskSnapshot t).result_snippet.length ≤ 200
        ∧ (200 < t.result.length → (taskSnapshot t).result_snippet ≠ t.result)
        ∧ (∀ e, taskSnapshot { t with error := e } = taskSnapshot t)) := by
  refine ⟨rfl, rfl, rfl, rfl, ?_⟩
  intro t
  refine ⟨rfl, rfl, rfl, rfl, rfl, ?_, ?_, ?_, fun _ => rfl⟩
  · show ∃ rest, t.result = (if t.result = "" then "" else strTake t.result 200) ++ rest
    by_cases h : t.result = ""
    · exact ⟨"", by rw [if_pos h, h]; rfl⟩
    · exact ⟨strDrop t.result 200, by rw [if_neg h, strTake_append_strDrop]⟩
  · show (if t.result = "" then "" else strTake t.result 200).length ≤ 200
    by_cases h : t.result = ""
    · rw [if_pos h]; decide
    · rw [if_neg h]; exact strTake_length_le t.result 200
  · intro h200
    show (if t.result = "" then "" else strTake t.result 200) ≠ t.result
    have h : t.result ≠ "" := by
      intro h0
      rw [h0] at h200
      exact absurd h200 (by decide)
    rw [if_neg h]
    intro heq
    have hlen := congrArg String.length heq
    rw [strTake_length_eq_of_le t.result 200 (le_of_lt h200)] at hlen
    omega

/-- Witness for C6 (amended) at a concrete one-task state. -/
theorem save_state_record_witness :
    (save_state ⟨"sess-1", "obj", [tC6], [], []⟩ "T").session_id = "sess-1"
    ∧ (save_state ⟨"sess-1", "obj", [tC6], [], []⟩ "T").timestamp = "T"
    ∧ (save_state ⟨"sess-1", "obj", [tC6], [], []⟩ "T").main_prompt = "obj"
    ∧ (save_state ⟨"sess-1", "obj", [tC6], [], []⟩ "T").tasks = [tC6].map taskSnapshot
    ∧ (∀ t : AgentTask,
        (taskSnapshot t).id = t.agent_id
        ∧ (taskSnapshot t).name = t.name
        ∧ (taskSnapshot t).status = t.status
        ∧ (taskSnapshot t).started_at = t.started_at
        ∧ (taskSnapshot t).ended_at = t.ended_at
        ∧ (∃ rest, t.result = (taskSnapshot t).result_snippet ++ rest)
        ∧ (taskSnapshot t).result_snippet.length ≤ 200
        ∧ (200 < t.result.length → (taskSnapshot t).result_snippet ≠ t.result)
        ∧ (∀ e, taskSnapshot { t with error := e } = taskSnapshot t)) :=
  save_state_record ⟨"sess-1", "obj", [tC6], [], []⟩ "T"

/-! ## Claim C7: report-path namespacing

The report path uses only `session_id[:8]`, so it is not injective in the
session id: two distinct ids sharing their first 8 characters collide.
Counterexample below; the amended statement is injectivity in the 8-character
id prefix. -/

/-- C7 counterexample: two distinct session identifiers (uuid-shaped,
agreeing on their first 8 characters) are mapped to the same report path. -/
theorem report_path_collision :
    ("aaaaaaaa-1111-4000-8000-000000000001" : String)
        ≠ "aaaaaaaa-2222-4000-8000-000000000002"
    ∧ reportPath "aaaaaaaa-1111-4000-8000-000000000001"
        = reportPath "aaaaaaaa-2222-4000-8000-000000000002" := by
  decide

/-- C7 amended: the report path is determined by the first 8 characters of
the session id, and is injective in that prefix — two runs whose session
ids differ within their first 8 characters get distinct report paths. -/
theorem report_path_inj_on_eight (s₁ s₂ : String) (h : strTake s₁ 8 ≠ strTake s₂ 8) :
    reportPath s₁ ≠ reportPath s₂ := by
  intro heq
  apply h
  have hd := congrArg String.data heq
  show strTake s₁ 8 = strTake s₂ 8
  unfold reportPath at hd
  simp only [String.data_append] at hd
  have h1 := List.append_cancel_right hd
  have h2 := List.append_cancel_left h1
  cases hs₁ : strTake s₁ 8
  cases hs₂ : strTake s₂ 8
  rw [hs₁, hs₂] at h2
  simp_all

/-- Witness for C7 (amended): ids differing in the first character get
different report paths. -/
theorem report_path_inj_on_eight_witness :
    reportPath "abcdefgh-1111" ≠ reportPath "zbcdefgh-1111" :=
  report_path_inj_on_eight "abcdefgh-1111" "zbcdefgh-1111" (by decide)

/-! ## Claim C4: a zero-worker run

The spec asks for a graceful zero-task run; the code hands
`max_workers=agent_count` to `ThreadPoolExecutor`, whose constructor raises
`ValueError("max_workers must be greater than 0")` for a non-positive
value. So with count 0 the run derives an empty task list and writes the
initial snapshot, then aborts before draining — no report is written. -/

/-- A concrete environment for the zero-worker run. -/
def envC4 : RunEnv :=
  ⟨idSupply, fun _ => "T", fun _ => ⟨0, .finished 0 "" "", "S", "E"⟩, []⟩

/-- C4 counterexample: with worker count 0 the run does not complete — the
pool constructor's `ValueError` escapes after the initial snapshot (empty
task list, one state write) and before any report write. -/
theorem run_zero_agents_raises :
    run envC4 "sess-c4" "obj" 0 true
      = .error ("max_workers must be greater than 0",
          ⟨"sess-c4", "obj", [], [⟨"sess-c4", "T", "obj", []⟩], []⟩) := by
  rfl

/-- C4 amended: for every environment, objective and mode, a run requested
with worker count 0 derives an empty task list and writes the initial
snapshot, then aborts with the pool constructor's error
(`max_workers must be greater than 0`) before running the pool or writing
a synthesis report. -/
theorem run_zero_agents (env : RunEnv) (sid obj : String) (m : Bool) :
    run env sid obj 0 m
      = .error ("max_workers must be greater than 0",
          { session_id := sid, main_prompt := obj, tasks := [],
            stateWrites := [⟨sid, env.times 0, obj, []⟩], reportWrites := [] }) := by
  unfold run recordState save_state initialize_tasks
  simp

/-- Witness for C4 (amended) at a concrete environment. -/
theorem run_zero_agents_witness :
    run envC4 "w4" "o" 0 false
      = .error ("max_workers must be greater than 0",
          { session_id := "w4", main_prompt := "o", tasks := [],
            stateWrites := [⟨"w4", envC4.times 0, "o", []⟩], reportWrites := [] }) :=
  run_zero_agents envC4 "w4" "o" false

/-! ## Claim C9: `synthesize` is pure with respect to task state -/

/-- The concatenation of per-task report sections, in list order. -/
def joinSections : List AgentTask → String
  | [] => ""
  | t :: ts => sectionFor t ++ joinSections ts

theorem foldl_sections (l : List AgentTask) (acc : String) :
    l.foldl (fun a t => a ++ sectionFor t) acc = acc ++ joinSections l := by
  induction l generalizing acc with
  | nil => simp [joinSections]
  | cons t ts ih =>
    show (t :: ts).foldl (fun a t => a ++ sectionFor t) acc = acc ++ joinSections (t :: ts)
    rw [List.foldl_cons, ih, joinSections, String.append_assoc]

/-- C9: `synthesize` leaves every task (hence every task field), the session
fields and the state-write log unchanged; its only effect is appending the
report write. The report is the header followed by one section per task in
original derivation order, each section containing the full result text, or
the placeholder `No output generated.` when the result is empty. -/
theorem synthesize_pure (st : OrchState) :
    (synthesize st).session_id = st.session_id
    ∧ (synthesize st).main_prompt = st.main_prompt
    ∧ (synthesize st).tasks = st.tasks
    ∧ (synthesize st).stateWrites = st.stateWrites
    ∧ (synthesize st).reportWrites
        = st.reportWrites ++ [(reportPath st.session_id, synthesisContent st)]
    ∧ synthesisContent st = synthesisHeader st ++ joinSections st.tasks
    ∧ (∀ t : AgentTask,
        (t.result ≠ "" → ∃ pre post, sectionFor t = pre ++ (t.result ++ post))
        ∧ (t.result = "" →
            ∃ pre post, sectionFor t = pre ++ ("No output generated." ++ post))) := by
  refine ⟨rfl, rfl, rfl, rfl, rfl, foldl_sections st.tasks (synthesisHeader st), ?_⟩
  intro t
  constructor
  · intro h
    refine ⟨"### " ++ t.name ++ "\n" ++ "- **Task**: " ++ strTake t.prompt 100 ++ "...\n"
        ++ "- **Status**: " ++ t.status.str ++ "\n" ++ "- **Key Findings**:\n\n",
      "\n\n" ++ "---\n\n", ?_⟩
    unfold sectionFor
    rw [if_neg h, ← String.append_assoc, ← String.append_assoc]
  · intro h
    refine ⟨"### " ++ t.name ++ "\n" ++ "- **Task**: " ++ strTake t.prompt 100 ++ "...\n"
        ++ "- **Status**: " ++ t.status.str ++ "\n" ++ "- **Key Findings**:\n\n",
      "\n\n" ++ "---\n\n", ?_⟩
    unfold sectionFor
    rw [if_pos h, ← String.append_assoc, ← String.append_assoc]

/-- Witness for C9 at a concrete one-task state. -/
theorem synthesize_pure_witness :
    (synthesize ⟨"sess-9", "obj", [tC6], [], []⟩).session_id = "sess-9"
    ∧ (synthesize ⟨"sess-9", "obj", [tC6], [], []⟩).main_prompt = "obj"
    ∧ (synthesize ⟨"sess-9", "obj", [tC6], [], []⟩).tasks = [tC6]
    ∧ (synthesize ⟨"sess-9", "obj", [tC6], [], []⟩).stateWrites = []
    ∧ (synthesize ⟨"sess-9", "obj", [tC6], [], []⟩).reportWrites
        = [] ++ [(reportPath "sess-9", synthesisContent ⟨"sess-9", "obj", [tC6], [], []⟩)]
    ∧ synthesisContent ⟨"sess-9", "obj", [tC6], [], []⟩
        = synthesisHeader ⟨"sess-9", "obj", [tC6], [], []⟩ ++ joinSections [tC6]
    ∧ (∀ t : AgentTask,
        (t.result ≠ "" → ∃ pre post, sectionFor t = pre ++ (t.result ++ post))
        ∧ (t.result = "" →
            ∃ pre post, sectionFor t = pre ++ ("No output generated." ++ post))) :=
  synthesize_pure ⟨"sess-9", "obj", [tC6], [], []⟩

/-! ## Claim C8: the mock scenario (count 2, "Review the login flow")

The mock result text quotes `self.prompt[:30]`; the rendered instruction
begins with the role preamble (`Use the security-auditor agent …`), so the
objective — which appears only after the role fields — is cut off, and the
mock result never mentions "login flow". The report quotes
`t.prompt[:100]`, which also ends before the objective. -/

/-- Concrete environment for the C8 scenario (drain order 0 then 1). -/
def envC8 : RunEnv :=
  ⟨fun n => String.mk (List.replicate (n + 1) 'i'), fun _ => "T",
    fun _ => ⟨3, .finished 0 "" "", "S", "E"⟩, [0, 1]⟩

/-- The final orchestrator state of the C8 scenario. -/
def runC8 : OrchState :=
  ((run envC8 "session-c8-0000" "Review the login flow" 2 true).toOption).getD default

/-- C8 counterexample: in the scenario's run, neither task's mock result
text — nor either report section — mentions "login flow". -/
theorem mock_scenario_no_login_flow :
    strMentions "login flow" ((runC8.tasks.getD 0 default).result) = false
    ∧ strMentions "login flow" ((runC8.tasks.getD 1 default).result) = false
    ∧ strMentions "login flow" (sectionFor (runC8.tasks.getD 0 default)) = false
    ∧ strMentions "login flow" (sectionFor (runC8.tasks.getD 1 default)) = false := by
  refine ⟨by decide, by decide, by decide, by decide⟩

/-- C8 amended: the scenario derives exactly 2 tasks from role-table
entries 0 and 1, both end `completed`, and the single report holds one
section per task quoting each task's mock result text; that text quotes the
first 30 characters of the task's instruction (the role preamble), not the
objective. -/
theorem mock_scenario :
    runC8.tasks.map AgentTask.name = ["security-auditor", "backend-specialist"]
    ∧ runC8.tasks.map AgentTask.status = [.completed, .completed]
    ∧ (runC8.tasks.getD 0 default).prompt
        = subPrompt (agent_map.getD 0 ⟨"", "", ""⟩) "Review the login flow"
    ∧ (runC8.tasks.getD 1 default).prompt
        = subPrompt (agent_map.getD 1 ⟨"", "", ""⟩) "Review the login flow"
    ∧ (runC8.tasks.getD 0 default).result
        = "MOCK RESULT for security-auditor: Analyzed Use the security-auditor agent"
          ++ "... found 3 issues."
    ∧ (runC8.tasks.getD 1 default).result
        = "MOCK RESULT for backend-specialist: Analyzed Use the backend-specialist age"
          ++ "... found 3 issues."
    ∧ runC8.reportWrites.length = 1
    ∧ strMentions ((runC8.tasks.getD 0 default).result)
        ((runC8.reportWrites.getD 0 default).2) = true
    ∧ strMentions ((runC8.tasks.getD 1 default).result)
        ((runC8.reportWrites.getD 0 default).2) = true
    ∧ strMentions "Use the security-auditor agent" ((runC8.tasks.getD 0 default).result)
        = true := by
  refine ⟨by decide, by decide, by decide, by decide, by decide, by decide, by decide,
    by decide, by decide, by decide⟩

/-! ## Claim C5: snapshot terminal counts are monotone

The run writes the initial snapshot after derivation and one snapshot from
the drain loop after each task completion. Each task's status only moves
forward (`execute` ends in a terminal status, rank 2, at least the rank of
whatever was there), so the statuses recorded by successive snapshots are
pointwise forward and the count of terminal tasks never decreases. The
theorem is stated over the modeled `run` for an arbitrary drain order. -/

/-- Number of terminal statuses in a list. -/
def countTerminal (l : List Status) : Nat := (l.filter Status.isTerminal).length

/-- Number of terminal tasks recorded in a state snapshot. -/
def snapTerminal (r : StateRecord) : Nat := countTerminal (r.tasks.map TaskSnapshot.status)

/-- Pointwise forward progress between two status lists. -/
def sForward (l l' : List Status) : Prop :=
  List.Forall₂ (fun a b => a.rank ≤ b.rank) l l'

/-- Pointwise forward progress between the statuses of two snapshots. -/
def recForward (r r' : StateRecord) : Prop :=
  sForward (r.tasks.map TaskSnapshot.status) (r'.tasks.map TaskSnapshot.status)

/-- The statuses of a task list. -/
def taskStatuses (ts : List AgentTask) : List Status := ts.map AgentTask.status

theorem sForward_refl (l : List Status) : sForward l l :=
  List.forall₂_same.mpr fun _ _ => le_refl _

theorem sForward_trans {l₁ l₂ l₃ : List Status} (h₁ : sForward l₁ l₂) (h₂ : sForward l₂ l₃) :
    sForward l₁ l₃ := by
  induction h₁ generalizing l₃ with
  | nil => cases h₂; exact List.Forall₂.nil
  | cons hab _ ih =>
    cases h₂ with
    | cons hbc htail => exact List.Forall₂.cons (le_trans hab hbc) (ih htail)

/-- Forward progress never loses terminal statuses, so the terminal count
is monotone. -/
theorem countTerminal_mono {l l' : List Status} (h : sForward l l') :
    countTerminal l ≤ countTerminal l' := by
  induction h with
  | nil => exact le_refl _
  | @cons a b as bs hab _ ih =>
    by_cases ha : a.isTerminal
    · have hb : b.isTerminal = true := by
        rw [Status.isTerminal_iff_rank] at ha ⊢
        have := Status.rank_le_two b
        omega
      simp only [countTerminal, List.filter_cons, ha, hb, if_pos]
      simpa [countTerminal] using ih
    · by_cases hb : b.isTerminal
      · simp only [countTerminal, List.filter_cons, ha, hb]
        simp only [countTerminal] at ih
        simp
        omega
      · simp only [countTerminal, List.filter_cons, ha, hb]
        simpa [countTerminal] using ih

/-- Replacing one task by a terminally-executed value is forward progress. -/
theorem taskStatuses_set_forward (ts : List AgentTask) (j : Nat) (t' : AgentTask)
    (h : t'.status.rank = 2) : sForward (taskStatuses ts) (taskStatuses (ts.set j t')) := by
  induction ts generalizing j with
  | nil => exact List.Forall₂.nil
  | cons a as ih =>
    cases j with
    | zero =>
      refine List.Forall₂.cons ?_ (sForward_refl (taskStatuses as))
      rw [h]
      exact Status.rank_le_two a.status
    | succ k => exact List.Forall₂.cons (le_refl _) (ih k)

/-- The statuses a snapshot records are the tasks' statuses. -/
theorem save_state_statuses (st : OrchState) (now : String) :
    (save_state st now).tasks.map TaskSnapshot.status = taskStatuses st.tasks := by
  simp [save_state, taskStatuses, taskSnapshot, List.map_map, Function.comp]

/-- Invariant carried through the drain loop: the write log is a forward
chain, and its last entry is pointwise-forward of the live task list. -/
def ChainInv (st : OrchState) : Prop :=
  List.Chain' recForward st.stateWrites
  ∧ ∀ r ∈ st.stateWrites.getLast?,
      sForward (r.tasks.map TaskSnapshot.status) (taskStatuses st.tasks)

theorem chainInv_recordState (times : Nat → String) (st : OrchState) (h : ChainInv st) :
    ChainInv (recordState times st) := by
  obtain ⟨hchain, hlast⟩ := h
  constructor
  · show List.Chain' recForward
      (st.stateWrites ++ [save_state st (times st.stateWrites.length)])
    rw [List.chain'_append]
    refine ⟨hchain, List.chain'_singleton _, ?_⟩
    intro x hx y hy
    simp only [List.head?_cons, Option.mem_def, Option.some.injEq] at hy
    subst hy
    show sForward (x.tasks.map TaskSnapshot.status) _
    rw [save_state_statuses]
    exact hlast x hx
  · intro r hr
    show sForward _ (taskStatuses st.tasks)
    simp only [recordState] at hr
    rw [List.getLast?_concat] at hr
    simp only [Option.mem_def, Option.some.injEq] at hr
    subst hr
    rw [save_state_statuses]
    exact sForward_refl _

theorem chainInv_setTask (st : OrchState) (j : Nat) (t' : AgentTask)
    (hrank : t'.status.rank = 2) (h : ChainInv st) :
    ChainInv { st with tasks := st.tasks.set j t' } := by
  obtain ⟨hchain, hlast⟩ := h
  refine ⟨hchain, ?_⟩
  intro r hr
  exact sForward_trans (hlast r hr) (taskStatuses_set_forward st.tasks j t' hrank)

theorem chainInv_drainStep (env : RunEnv) (m : Bool) (st : OrchState) (j : Nat)
    (h : ChainInv st) : ChainInv (drainStep env m st j) := by
  unfold drainStep
  cases hj : st.tasks[j]? with
  | none => exact h
  | some t =>
    exact chainInv_recordState env.times _
      (chainInv_setTask st j (t.execute m (env.execEnvs j)) (execute_rank_two t m _) h)

theorem chainInv_foldl (env : RunEnv) (m : Bool) (order : List Nat) (st : OrchState)
    (h : ChainInv st) : ChainInv (order.foldl (drainStep env m) st) := by
  induction order generalizing st with
  | nil => exact h
  | cons j rest ih => exact ih _ (chainInv_drainStep env m st j h)

/-- Along a forward chain of snapshots, any measure respecting the relation
is monotone in the write order. -/
theorem chain_getD_mono (f : StateRecord → Nat) (l : List StateRecord)
    (hf : ∀ a b, recForward a b → f a ≤ f b) (hc : List.Chain' recForward l) :
    ∀ i j, i ≤ j → j < l.length → f (l.getD i default) ≤ f (l.getD j default) := by
  have hstep : ∀ k, k + 1 < l.length →
      f (l.getD k default) ≤ f (l.getD (k + 1) default) := by
    intro k hk
    have hk' : k < l.length - 1 := by omega
    have := (List.chain'_iff_get.mp hc) k hk'
    have e1 : l.getD k default = l.get ⟨k, by omega⟩ := by
      simp [List.getD_eq_getElem?_getD, List.getElem?_eq_getElem (show k < l.length by omega)]
    have e2 : l.getD (k + 1) default = l.get ⟨k + 1, by omega⟩ := by
      simp [List.getD_eq_getElem?_getD, List.getElem?_eq_getElem hk]
    rw [e1, e2]
    exact hf _ _ this
  intro i j hij hj
  induction j with
  | zero =>
    have : i = 0 := Nat.le_zero.mp hij
    subst this
    exact le_refl _
  | succ k ih =>
    rcases Nat.lt_or_ge i (k + 1) with hik | hik
    · have h1 : f (l.getD i default) ≤ f (l.getD k default) :=
        ih (by omega) (by omega)
      exact le_trans h1 (hstep k hj)
    · have : i = k + 1 := by omega
      subst this
      exact le_refl _

/-- C5: in any completed run (any environment, any drain order), the
number of tasks recorded with a terminal status never decreases across the
sequence of state snapshots written during the run. -/
theorem run_snapshots_terminal_monotone (env : RunEnv) (sid obj : String) (c : Nat)
    (m : Bool) (st : OrchState) (h : run env sid obj c m = .ok st) :
    ∀ i j, i ≤ j → j < st.stateWrites.length →
      snapTerminal (st.stateWrites.getD i default)
        ≤ snapTerminal (st.stateWrites.getD j default) := by
  have hchain : List.Chain' recForward st.stateWrites := by
    unfold run at h
    by_cases hc : c = 0
    · rw [if_pos hc] at h
      cases h
    · rw [if_neg hc] at h
      have hst : st = synthesize (env.drainOrder.foldl (drainStep env m)
          (recordState env.times
            { session_id := sid, main_prompt := obj,
              tasks := initialize_tasks env.ids obj c,
              stateWrites := [], reportWrites := [] })) := by
        cases h
        rfl
      have hinv0 : ChainInv
          { session_id := sid, main_prompt := obj,
            tasks := initialize_tasks env.ids obj c,
            stateWrites := [], reportWrites := [] } := by
        constructor
        · exact List.chain'_nil
        · intro r hr
          simp at hr
      have hinv := chainInv_foldl env m env.drainOrder _
        (chainInv_recordState env.times _ hinv0)
      rw [hst]
      exact hinv.1
  exact chain_getD_mono snapTerminal st.stateWrites
    (fun a b hab => countTerminal_mono hab) hchain

/-- Concrete environment for the C5 witness: one task, drained once. -/
def envC5 : RunEnv :=
  ⟨fun n => String.mk (List.replicate (n + 1) 'k'), fun _ => "T",
    fun _ => ⟨1, .finished 0 "" "", "S", "E"⟩, [0]⟩

/-- The final state of the C5 witness run. -/
def runC5 : OrchState :=
  ((run envC5 "sess-c5" "obj" 1 true).toOption).getD default

/-- Witness for C5: in a concrete one-task mock run, the terminal count of
the first snapshot (0) is at most that of the second (1). -/
theorem run_snapshots_terminal_monotone_witness :
    snapTerminal (runC5.stateWrites.getD 0 default)
      ≤ snapTerminal (runC5.stateWrites.getD 1 default) :=
  run_snapshots_terminal_monotone envC5 "sess-c5" "obj" 1 true runC5 (by rfl)
    0 1 (by decide) (by decide)

end PO
